import Mathlib

/-!
Verification development for the Online-Ticket-Booking-System backend
(`api/models.py`, `api/serializers.py`, `api/views.py`).

Shallow embedding conventions:
* Django `DateField` values are day numbers (`Nat`); `TimeField` values are
  minutes since midnight (`Nat`, `0 ≤ t < 1440`); an instant (`DateTimeField`,
  `timezone.now()`) is an absolute number of minutes since the epoch (`Nat`),
  so `now / 1440` is the current day number and `combine(date, time) = d * 1440 + t`.
  (Sub-minute precision is irrelevant to every property considered here.)
* `DecimalField` money amounts are exact integers in cents (`Int`).
* `PositiveIntegerField` seat counters are embedded as `Int` so that
  non-negativity is a provable property rather than a typing artifact.
* A Python JSON object produced by `json.dumps` of a dict literal is embedded
  as its ordered key/value list, values rendered to strings.
* Nullable columns are `Option`s; Python falsiness of the empty string, of `0`, of `None` and of empty
  is translated at each use site.
* Randomness (`secrets.choice`) and database id assignment are explicit
  inputs: the stream of random draws and the fresh ids are parameters.
* A Django request handler is a function from the database state and the
  request data to the new database state and an HTTP-level outcome;
  `transaction.atomic` blocks are sub-computations in `Except` whose error
  case discards the tentative state (rollback).
-/

namespace TicketSystem

/-- Ticket.STATUS_CHOICES: pending / confirmed / cancelled. -/
inductive TStatus
  | pending
  | confirmed
  | cancelled
deriving DecidableEq

/-- The `Event` model (`api/models.py`): the fields the reservation logic
reads or writes.  `date` is nullable in practice (the admin form can clear
it and `views.py` guards `if event_date:`), so it is an `Option`. -/
structure Event where
  id : Nat
  title : String
  date : Option Nat
  time : Nat
  price : Int
  total_seats : Int
  available_seats : Int
  is_active : Bool
deriving DecidableEq

/-- `Event.formatted_date`: `strftime("%d.%m.%Y")` of the date, `""` when the
date is null.  The rendering itself is abstracted as the
decimal string of the day number; no property below depends on the text format. -/
def Event.formatted_date (e : Event) : String :=
  match e.date with
  | some d => toString d
  | none => ""

/-- `Event.formatted_time`: `strftime("%H:%M")` of the start time, abstracted
as the decimal string of the minute count. -/
def Event.formatted_time (e : Event) : String :=
  toString e.time

/-- The `Ticket` model (`api/models.py`).  `event` embeds the related `Event`
row (the `ticket.event` object access of Django); `user` is the id of the user.
`qr_code_data` is the ordered JSON object, `[]` standing for the Python
empty/null payload. -/
structure Ticket where
  id : Nat
  title : String
  price : Int
  available : Bool
  event : Option Event
  user : Option Nat
  purchase_date : Option Nat
  status : TStatus
  quantity : Int
  reference_number : String
  qr_code_data : List (String × String)
  cancelled_date : Option Nat
  refund_amount : Int
deriving DecidableEq

/-- `Ticket.total_price`: `self.price * self.quantity`. -/
def Ticket.total_price (t : Ticket) : Int :=
  t.price * t.quantity

/-- `Ticket.generate_qr_code_data` (`api/models.py`): the 12-field payload,
with empty-string fallbacks for missing event/user/purchase_date. -/
def Ticket.generate_qr_code_data (t : Ticket) : List (String × String) :=
  [ ("ticket_id", toString t.id)
  , ("reference_number", t.reference_number)
  , ("event_id", match t.event with | some e => toString e.id | none => "")
  , ("event_title", match t.event with | some e => e.title | none => "")
  , ("event_date", match t.event with | some e => e.formatted_date | none => "")
  , ("event_time", match t.event with | some e => e.formatted_time | none => "")
  , ("user_id", match t.user with | some u => toString u | none => "")
  , ("quantity", toString t.quantity)
  , ("total_price", toString t.total_price)
  , ("purchase_date", match t.purchase_date with | some p => toString p | none => "")
  , ("status", match t.status with
      | TStatus.pending => "pending"
      | TStatus.confirmed => "confirmed"
      | TStatus.cancelled => "cancelled")
  , ("verified", "false") ]

/-- `Ticket.save` (`api/models.py`): the four pre-save fixups, in source
order.  `freshRef` stands for the random reference that
`generate_reference_number` would draw when the stored reference is blank;
the Python test `not self.price` is truth-testing a `Decimal`, i.e. `price = 0`.
`auto_now_add` on `purchase_date` belongs to row insertion and is handled
where `Ticket.objects.create` is embedded. -/
def Ticket.save (t : Ticket) (now : Nat) (freshRef : String) : Ticket :=
  let t1 := if t.reference_number = "" then { t with reference_number := freshRef } else t
  let t2 := match t1.event with
    | some e => if t1.price = 0 then { t1 with price := e.price } else t1
    | none => t1
  let t3 := if t2.qr_code_data = [] ∧ t2.event.isSome ∧ t2.user.isSome then
      { t2 with qr_code_data := t2.generate_qr_code_data }
    else t2
  if t3.status = TStatus.cancelled ∧ t3.cancelled_date = none then
    { t3 with cancelled_date := some now, refund_amount := t3.total_price }
  else t3

/-- `Ticket.can_be_cancelled` (`api/models.py`): confirmed, event and event
date present, and `(combine(date, time) - now).total_seconds() > 24*60*60`. -/
def Ticket.can_be_cancelled (t : Ticket) (now : Nat) : Bool :=
  if t.status ≠ TStatus.confirmed then false
  else
    match t.event with
    | none => false
    | some e =>
      match e.date with
      | none => false
      | some d => decide ((((d * 1440 + e.time : Nat) : Int) - (now : Int)) * 60 > 24 * 60 * 60)

/-- `Ticket.cancel` (`api/models.py`): refuse unless `can_be_cancelled`;
otherwise set status/cancelled_date/refund, restore the seats of the event, save,
and report `True`.  Returns the updated ticket (carrying its updated event)
together with the Python boolean result. -/
def Ticket.cancel (t : Ticket) (now : Nat) (freshRef : String) (refund : Option Int) :
    Ticket × Bool :=
  if ¬ t.can_be_cancelled now then (t, false)
  else
    let t1 := { t with status := TStatus.cancelled, cancelled_date := some now }
    let t2 := { t1 with refund_amount := match refund with
      | some r => r
      | none => t1.total_price }
    let t3 := match t2.event with
      | some e => { t2 with event := some { e with available_seats := e.available_seats + t2.quantity } }
      | none => t2
    (t3.save now freshRef, true)

/-- HTTP-level outcomes of a request handler.  `validation` is a serializer
`ValidationError` surfaced by `raise_exception=True` (HTTP 400);
`badRequest` is an explicit 400 `Response` built in the view;
`attributeError` is an uncaught Python `AttributeError` (HTTP 500). -/
inductive ApiError
  | validation (msg : String)
  | badRequest (msg : String)
  | attributeError
deriving DecidableEq

/-- Argument passed to the module-level `generate_qr_code_data` in
`api/serializers.py`.  The function reads `ticket.id`, `ticket.event.id`,
`ticket.user.id`, ... by attribute access; `TicketViewSet.create` calls it
once with a plain dict literal, and a Python dict has no such attributes,
whatever its keys. -/
inductive QrArg
  | ticket (t : Ticket)
  | pyDict (keys : List String)

/-- Module-level `generate_qr_code_data` (`api/serializers.py`): the 8-field
payload.  Attribute access on a dict argument raises `AttributeError` at the
very first lookup (`str(ticket.id)`); on a `Ticket` whose `event` or `user`
is null, `ticket.event.id` / `ticket.user.id` raises as well.  `now` is
`django.utils.timezone.now()`, used when `purchase_date` is unset. -/
def generate_qr_code_data (arg : QrArg) (now : Nat) :
    Except ApiError (List (String × String)) :=
  match arg with
  | QrArg.pyDict _ => Except.error ApiError.attributeError
  | QrArg.ticket t =>
    match t.event, t.user with
    | some e, some u =>
      Except.ok
        [ ("ticket_id", toString t.id)
        , ("reference_number", t.reference_number)
        , ("event_id", toString e.id)
        , ("event_title", e.title)
        , ("user_id", toString u)
        , ("quantity", toString t.quantity)
        , ("purchase_date", match t.purchase_date with
            | some p => toString p
            | none => toString now)
        , ("verified", "false") ]
    | _, _ => Except.error ApiError.attributeError

/-- The uppercase-alphanumeric alphabet `string.ascii_uppercase + string.digits`
that `generate_reference_number` draws from. -/
def refAlphabet : List Char :=
  "ABCDEFGHIJKLMNOPQRSTUVWXYZ0123456789".toList

theorem refAlphabet_length : refAlphabet.length = 36 := by decide

/-- Turns one run of `secrets.choice(alphabet)` draws into the joined suffix
string.  Each draw is an index into the 36-character alphabet, which is
exactly what `secrets.choice` produces. -/
def mkSuffix (draw : List (Fin 36)) : String :=
  String.mk (draw.map fun i => refAlphabet.get (Fin.cast refAlphabet_length.symm i))

/-- Module-level `generate_reference_number` (`api/serializers.py`; the copy
in `Ticket.generate_reference_number` is textually identical): keep drawing
8-character candidates until one is not already stored.  The unbounded
`while True` loop is embedded on an explicit finite stream of draws, with
`none` for the (probability-zero) case that the stream is exhausted with
every candidate colliding. -/
def generate_reference_number (existing : List String) :
    List (List (Fin 36)) → Option String
  | [] => none
  | draw :: rest =>
    let r := "TKT-" ++ mkSuffix draw
    if r ∈ existing then generate_reference_number existing rest
    else some r

/-- Input data of `TicketPurchaseSerializer`: `event_id` and `quantity`
(the payment fields play no part in any rule). -/
structure PurchaseRequest where
  event_id : Nat
  quantity : Int
deriving DecidableEq

/-- The persistent store: the `Event` rows and the `Ticket` rows. -/
structure DB where
  events : List Event
  tickets : List Ticket
deriving DecidableEq

/-- `Event.objects.get(id=event_id)`. -/
def DB.findEvent (db : DB) (i : Nat) : Option Event :=
  db.events.find? fun e => e.id == i

/-- `event.save()`: overwrite the row with the same id. -/
def DB.saveEvent (db : DB) (e : Event) : DB :=
  { db with events := db.events.map fun x => if x.id == e.id then e else x }

/-- `TicketPurchaseSerializer` (`api/serializers.py`): the field validators
(`quantity` has `min_value=1, max_value=10`) run first, then `validate`
looks the event up, requires `is_active`, and requires
`available_seats >= quantity`; the validated event row is returned. -/
def TicketPurchaseSerializer.validate (db : DB) (req : PurchaseRequest) :
    Except String Event :=
  if req.quantity < 1 ∨ 10 < req.quantity then
    Except.error "Ensure quantity is between 1 and 10"
  else
    match db.findEvent req.event_id with
    | none => Except.error "Event not found"
    | some e =>
      if ¬ e.is_active then Except.error "Event is not active"
      else if e.available_seats < req.quantity then
        Except.error ("Only " ++ toString e.available_seats ++ " seats available")
      else Except.ok e

/-- Body of the `with transaction.atomic():` block of `TicketViewSet.create`
(`api/views.py`, lines 78-107).  `event` is the in-memory row the serializer
validated; `newTicketId` is the primary key the insert would assign;
`ref1`/`ref2` are the two `generate_reference_number()` results (modelled as
inputs, see `generate_reference_number` for the generator itself; the third
draw placed inside the throwaway dict literal is irrelevant, since attribute
access on the dict fails whatever it holds).  The block re-checks
availability, decrements and saves the event, and then evaluates the
arguments of `Ticket.objects.create`: the `qr_code_data` argument applies
`generate_qr_code_data` to a plain dict literal, which raises
`AttributeError`, so everything past that point is dead code — it is still
translated in full below the failing call. -/
def createTransaction (db : DB) (userId : Nat) (req : PurchaseRequest) (event : Event)
    (now : Nat) (newTicketId : Nat) (ref1 ref2 : String) :
    Except ApiError (DB × Ticket) := do
  if event.available_seats < req.quantity then
    throw (ApiError.badRequest
      ("Only " ++ toString event.available_seats ++ " seats available"))
  let event1 := { event with available_seats := event.available_seats - req.quantity }
  let db1 := db.saveEvent event1
  let qr0 ← generate_qr_code_data
    (QrArg.pyDict ["id", "event", "user", "quantity", "purchase_date", "reference_number"]) now
  let ticket0 : Ticket :=
    { id := newTicketId
    , title := event.title ++ " Ticket"
    , price := event.price
    , available := true
    , event := some event1
    , user := some userId
    , purchase_date := some now
    , status := TStatus.confirmed
    , quantity := req.quantity
    , reference_number := ref1
    , qr_code_data := qr0
    , cancelled_date := none
    , refund_amount := 0 }
  let ticket1 := ticket0.save now ref2
  let qr1 ← generate_qr_code_data (QrArg.ticket ticket1) now
  let ticket2 := { ticket1 with qr_code_data := qr1 }
  let ticket3 := ticket2.save now ref2
  return ({ db1 with tickets := db1.tickets ++ [ticket3] }, ticket3)

/-- `TicketViewSet.create` (`api/views.py`): run the purchase serializer
(`raise_exception=True` turns a validation failure into an HTTP 400 before
anything is touched), then run the atomic block; an exception escaping the
block rolls the whole transaction back, so the stored state reverts to `db`. -/
def TicketViewSet.create (db : DB) (userId : Nat) (req : PurchaseRequest)
    (now : Nat) (newTicketId : Nat) (ref1 ref2 : String) :
    DB × Except ApiError Ticket :=
  match TicketPurchaseSerializer.validate db req with
  | Except.error m => (db, Except.error (ApiError.validation m))
  | Except.ok event =>
    match createTransaction db userId req event now newTicketId ref1 ref2 with
    | Except.error e => (db, Except.error e)
    | Except.ok (db2, t) => (db2, Except.ok t)

/-- The `transaction.atomic` tail of `TicketViewSet.cancel` (`api/views.py`,
lines 132-142): restore the seats, mark the ticket cancelled, save it, and
answer with `refund_amount = ticket.price * ticket.quantity` as read back
after the save. -/
def cancelCommit (t : Ticket) (e : Event) (now : Nat) (freshRef : String) :
    Ticket × Int :=
  let e1 := { e with available_seats := e.available_seats + t.quantity }
  let t1 := { t with event := some e1, status := TStatus.cancelled }
  let t2 := t1.save now freshRef
  (t2, t2.price * t2.quantity)

/-- `TicketViewSet.cancel` (`api/views.py`, lines 112-142): reject only a
ticket already cancelled; if the event has a date, reject when
`(event_date - today).days < 1` (a pure calendar-date comparison — the
time of day of the event is never consulted, and a null date skips the check entirely);
otherwise run `cancelCommit`.  `freshRef` feeds `Ticket.save` in case the
stored reference is blank. -/
def TicketViewSet.cancel (t : Ticket) (now : Nat) (freshRef : String) :
    Except ApiError (Ticket × Int) :=
  if t.status = TStatus.cancelled then
    Except.error (ApiError.badRequest "Ticket already cancelled")
  else
    match t.event with
    | none => Except.error ApiError.attributeError
    | some e =>
      let today : Nat := now / 1440
      match e.date with
      | some d =>
        if (d : Int) - (today : Int) < 1 then
          Except.error
            (ApiError.badRequest "Cannot cancel ticket less than 24 hours before event")
        else Except.ok (cancelCommit t e now freshRef)
      | none => Except.ok (cancelCommit t e now freshRef)

/-- Filter of the `upcoming`/`stats` queryset
(status equal to `confirmed` and `event__date__gte` the current date); the SQL
join drops tickets with a null event or a null event date. -/
def upcomingFilter (t : Ticket) (today : Nat) : Bool :=
  t.status == TStatus.confirmed &&
    match t.event with
    | some e => match e.date with
      | some d => today ≤ d
      | none => false
    | none => false

/-- Response body of `TicketViewSet.stats`. -/
structure StatsResponse where
  total_tickets : Nat
  upcoming_tickets : Nat
  total_spent : Int
deriving DecidableEq

/-- `TicketViewSet.stats` (`api/views.py`, lines 154-169): over the calling
tickets of the calling user (`get_queryset` filters on the requesting user), count
them all, count the confirmed ones with `event__date__gte` today, and sum
`price * quantity` over the confirmed ones. -/
def TicketViewSet.stats (db : DB) (userId : Nat) (now : Nat) : StatsResponse :=
  let tickets := db.tickets.filter fun t => t.user == some userId
  let today : Nat := now / 1440
  { total_tickets := tickets.length
  , upcoming_tickets := (tickets.filter fun t => upcomingFilter t today).length
  , total_spent :=
      ((tickets.filter fun t => t.status == TStatus.confirmed).map fun t =>
        t.price * t.quantity).sum }

/-- Key list of the payload built by the module-level `generate_qr_code_data`,
`none` when that call raises. -/
def serializerQrKeys (t : Ticket) (now : Nat) : Option (List String) :=
  match generate_qr_code_data (QrArg.ticket t) now with
  | Except.ok kvs => some (kvs.map Prod.fst)
  | Except.error _ => none

/-- Projection of a cancel outcome to the updated ticket, `none` on error. -/
def cancelledTicket (t : Ticket) (now : Nat) (freshRef : String) : Option Ticket :=
  match TicketViewSet.cancel t now freshRef with
  | Except.ok (t1, _) => some t1
  | Except.error _ => none

/-- A reference instant: 10:00 on day 199. -/
def exNow : Nat := 199 * 1440 + 600

/-- An active event with 10 of 10 seats free, priced 20.00, on day 200 at 18:00. -/
def exEvent1 : Event :=
  { id := 1, title := "Concert", date := some 200, time := 1080
  , price := 2000, total_seats := 10, available_seats := 10, is_active := true }

/-- Store holding `exEvent1` and no tickets. -/
def exDB1 : DB := { events := [exEvent1], tickets := [] }

/-- An active event with only 5 seats free. -/
def exEvent5 : Event :=
  { id := 1, title := "Match", date := some 200, time := 1080
  , price := 1500, total_seats := 5, available_seats := 5, is_active := true }

/-- Store holding `exEvent5` and no tickets. -/
def exDB5 : DB := { events := [exEvent5], tickets := [] }

/-- An active event used for the QR-payload evaluation. -/
def exEvent6 : Event :=
  { id := 2, title := "Expo", date := some 210, time := 600
  , price := 1200, total_seats := 8, available_seats := 6, is_active := true }

/-- Store holding `exEvent6` and no tickets. -/
def exDB6 : DB := { events := [exEvent6], tickets := [] }

/-- The ticket a purchase of 2 seats of `exEvent6` by user 9 would create. -/
def exTicket6 : Ticket :=
  { id := 1, title := "Expo Ticket", price := 1200, available := true
  , event := some { exEvent6 with available_seats := 4 }, user := some 9
  , purchase_date := some exNow, status := TStatus.confirmed, quantity := 2
  , reference_number := "TKT-EEEEEEEE", qr_code_data := []
  , cancelled_date := none, refund_amount := 0 }

/-- Claim C1 (code bug): at a concrete input satisfying every precondition of
the claim — active event, 10 available seats, quantity 3 — `TicketViewSet.create`
does not succeed: the `qr_code_data` argument of `Ticket.objects.create`
applies `generate_qr_code_data` to a plain dict literal, whose attribute
lookup raises `AttributeError`, so the transaction rolls back (the store is
returned unchanged, the decrement undone) and the request fails, where the
claim says the purchase succeeds leaving 7 seats. -/
theorem create_purchase_attribute_error :
    exEvent1.is_active = true ∧ exEvent1.available_seats = 10 ∧
    TicketViewSet.create exDB1 7 { event_id := 1, quantity := 3 } exNow 1
      "TKT-AAAAAAAA" "TKT-BBBBBBBB"
      = (exDB1, Except.error ApiError.attributeError) :=
  ⟨rfl, rfl, rfl⟩

/-- Claim C5 (code bug): two purchases of 3 seats each against a 5-seat event
(combined quantity exceeds availability) both fail with the `AttributeError`
of the purchase path and leave the store unchanged, under any interleaving:
the atomic block of each request aborts and rolls back, so zero purchases succeed
where the claim requires exactly one success. -/
theorem concurrent_purchases_zero_successes :
    (TicketViewSet.create exDB5 7 { event_id := 1, quantity := 3 } exNow 1
        "TKT-AAAAAAAA" "TKT-BBBBBBBB")
      = (exDB5, Except.error ApiError.attributeError) ∧
    (TicketViewSet.create
        (TicketViewSet.create exDB5 7 { event_id := 1, quantity := 3 } exNow 1
          "TKT-AAAAAAAA" "TKT-BBBBBBBB").fst
        8 { event_id := 1, quantity := 3 } exNow 2 "TKT-CCCCCCCC" "TKT-DDDDDDDD")
      = (exDB5, Except.error ApiError.attributeError) :=
  ⟨rfl, rfl⟩

/-- Claim C6 (code bug): no purchase succeeds (the same `AttributeError`), so
no ticket with the claimed payload is ever created; moreover the payload the
dead follow-up line of the view would attach — the module-level
`generate_qr_code_data` applied to the created ticket — carries only eight
fields, without the event date, event time, total price and status fields the
claim lists, which appear only in `Ticket.generate_qr_code_data`, a method
the purchase path never calls. -/
theorem create_qr_payload_fields :
    TicketViewSet.create exDB6 9 { event_id := 2, quantity := 2 } exNow 1
      "TKT-EEEEEEEE" "TKT-FFFFFFFF"
      = (exDB6, Except.error ApiError.attributeError)
    ∧ serializerQrKeys exTicket6 exNow = some
        ["ticket_id", "reference_number", "event_id", "event_title",
         "user_id", "quantity", "purchase_date", "verified"]
    ∧ exTicket6.generate_qr_code_data.map Prod.fst =
        ["ticket_id", "reference_number", "event_id", "event_title", "event_date",
         "event_time", "user_id", "quantity", "total_price", "purchase_date",
         "status", "verified"] :=
  ⟨rfl, rfl, rfl⟩

/-- Claim C7: a purchase request whose quantity is outside `[1, 10]`, whose
event id matches no event, or whose event is inactive is rejected by the
purchase serializer as a validation error (HTTP 400) with the store returned
exactly as it was: no seat change, no ticket row. -/
theorem create_validation_rejects_without_mutation (db : DB) (u : Nat)
    (req : PurchaseRequest) (now tid : Nat) (r1 r2 : String)
    (h : req.quantity < 1 ∨ 10 < req.quantity ∨ db.findEvent req.event_id = none
      ∨ ∃ e, db.findEvent req.event_id = some e ∧ e.is_active = false) :
    ∃ m, TicketViewSet.create db u req now tid r1 r2
      = (db, Except.error (ApiError.validation m)) := by
  have hv : ∃ m, TicketPurchaseSerializer.validate db req = Except.error m := by
    unfold TicketPurchaseSerializer.validate
    by_cases hq : req.quantity < 1 ∨ 10 < req.quantity
    · exact ⟨_, by rw [if_pos hq]⟩
    · rw [if_neg hq]
      rcases h with h | h | h | ⟨e, he, hact⟩
      · exact absurd (Or.inl h) hq
      · exact absurd (Or.inr h) hq
      · rw [h]
        exact ⟨_, rfl⟩
      · rw [he]
        exact ⟨"Event is not active", by simp [hact]⟩
  obtain ⟨m, hm⟩ := hv
  refine ⟨m, ?_⟩
  unfold TicketViewSet.create
  rw [hm]

/-- Witness for C7: quantity 0 against the 10-seat store is rejected with the
store unchanged. -/
theorem create_validation_rejects_without_mutation_w :
    ∃ m, TicketViewSet.create exDB1 7 { event_id := 1, quantity := 0 } exNow 1
      "TKT-AAAAAAAA" "TKT-BBBBBBBB"
      = (exDB1, Except.error (ApiError.validation m)) :=
  create_validation_rejects_without_mutation exDB1 7
    { event_id := 1, quantity := 0 } exNow 1 "TKT-AAAAAAAA" "TKT-BBBBBBBB"
    (Or.inl (by decide))

/-- Event starting on day 200 at 09:00 — 23 hours after `exNow`. -/
def exEvent2 : Event :=
  { id := 3, title := "Play", date := some 200, time := 540
  , price := 1500, total_seats := 10, available_seats := 5, is_active := true }

/-- A confirmed 2-seat ticket on `exEvent2`. -/
def exT2 : Ticket :=
  { id := 11, title := "Play Ticket", price := 1500, available := true
  , event := some exEvent2, user := some 7, purchase_date := some (198 * 1440)
  , status := TStatus.confirmed, quantity := 2
  , reference_number := "TKT-GGGGGGGG"
  , qr_code_data := [("ticket_id", "11")]
  , cancelled_date := none, refund_amount := 0 }

/-- Claim C2 (code bug): the event of `exT2` starts 23 hours after `exNow`
(1380 minutes), so `Ticket.can_be_cancelled` — the 24-hour rule the claim
states — says no; but `TicketViewSet.cancel` compares calendar dates only
(`(event_date - today).days = 1`, not `< 1`), so it cancels the ticket and
restores the seats where the claim requires a `CancellationWindowClosed`
failure with the seats unchanged. -/
theorem cancel_ignores_event_time :
    ((200 * 1440 + 540 : Int) - (exNow : Int) = 23 * 60)
    ∧ exT2.status = TStatus.confirmed
    ∧ Ticket.can_be_cancelled exT2 exNow = false
    ∧ (cancelledTicket exT2 exNow "TKT-ZZ999999").map Ticket.status
        = some TStatus.cancelled
    ∧ ((cancelledTicket exT2 exNow "TKT-ZZ999999").bind Ticket.event).map
        Event.available_seats = some 7 :=
  ⟨by decide, rfl, rfl, rfl, rfl⟩

/-- Event on day 205, comfortably outside every window at `exNow`. -/
def exEvent4 : Event :=
  { id := 4, title := "Fair", date := some 205, time := 600
  , price := 800, total_seats := 10, available_seats := 5, is_active := true }

/-- A still-pending 2-seat ticket on `exEvent4`. -/
def exT4 : Ticket :=
  { id := 12, title := "Fair Ticket", price := 800, available := true
  , event := some exEvent4, user := some 7, purchase_date := some (198 * 1440)
  , status := TStatus.pending, quantity := 2
  , reference_number := "TKT-HHHHHHHH"
  , qr_code_data := [("ticket_id", "12")]
  , cancelled_date := none, refund_amount := 0 }

/-- Claim C4 (code bug): on a pending ticket, the model method `Ticket.cancel`
refuses (status is not confirmed) and changes nothing, exactly as the claim
states; but the cancel action of the view only rejects tickets already cancelled,
so it cancels the pending ticket and adds its quantity to the seats of the event —
seats a pending ticket never subtracted. -/
theorem cancel_pending_ticket_accepted :
    exT4.status = TStatus.pending
    ∧ Ticket.cancel exT4 exNow "TKT-YY888888" none = (exT4, false)
    ∧ (cancelledTicket exT4 exNow "TKT-YY888888").map Ticket.status
        = some TStatus.cancelled
    ∧ ((cancelledTicket exT4 exNow "TKT-YY888888").bind Ticket.event).map
        Event.available_seats = some 7 :=
  ⟨rfl, rfl, rfl, rfl⟩

/-- None of the fixups in `Ticket.save` touches the status or the event. -/
theorem save_preserves_status_event (t : Ticket) (now : Nat) (fr : String) :
    (t.save now fr).status = t.status ∧ (t.save now fr).event = t.event := by
  unfold Ticket.save
  dsimp only
  rcases hev : t.event with _ | e <;>
    by_cases href : t.reference_number = "" <;>
      by_cases hqr : t.qr_code_data = [] <;>
        (try simp_all) <;> (try split_ifs) <;> (try simp_all)

/-- Projections of `Ticket.save` on a ticket already marked cancelled, with a
nonzero price and no cancellation date yet: the date becomes `now` and the
refund becomes `price * quantity`, while price and quantity are untouched. -/
theorem save_cancelled_proj (t : Ticket) (now : Nat) (fr : String)
    (hp : t.price ≠ 0) (hst : t.status = TStatus.cancelled)
    (hcd : t.cancelled_date = none) :
    (t.save now fr).cancelled_date = some now
    ∧ (t.save now fr).refund_amount = t.price * t.quantity := by
  unfold Ticket.save
  dsimp only
  rcases hev : t.event with _ | e <;>
    by_cases href : t.reference_number = "" <;>
      by_cases hqr : t.qr_code_data = [] <;>
        (try simp_all [Ticket.total_price]) <;> (try split_ifs) <;>
          (try simp_all [Ticket.total_price])

/-- Claim C3 (amended): a successful view-level cancellation of a confirmed
ticket with nonzero unit price and no cancellation date yet recorded (both
hold for any ticket in the normal lifecycle) restores the seats of the event,
marks the ticket cancelled with `cancelled_date = now` and
`refund_amount = price * quantity`, and a second cancel attempt on the
result is rejected. -/
theorem cancel_confirmed_ticket_spec (t t1 : Ticket) (e : Event) (now : Nat)
    (fr : String) (r : Int)
    (hst : t.status = TStatus.confirmed) (hev : t.event = some e)
    (hcd : t.cancelled_date = none) (hp : t.price ≠ 0)
    (hok : TicketViewSet.cancel t now fr = Except.ok (t1, r)) :
    t1.status = TStatus.cancelled
    ∧ t1.event = some { e with available_seats := e.available_seats + t.quantity }
    ∧ t1.cancelled_date = some now
    ∧ t1.refund_amount = t.price * t.quantity
    ∧ ∀ now2 fr2, TicketViewSet.cancel t1 now2 fr2
        = Except.error (ApiError.badRequest "Ticket already cancelled") := by
  unfold TicketViewSet.cancel at hok
  rw [if_neg (by simp [hst]), hev] at hok
  dsimp only at hok
  have ht1 : t1 = (cancelCommit t e now fr).1 := by
    rcases hd : e.date with _ | d
    · rw [hd] at hok
      dsimp only at hok
      have := Except.ok.inj hok
      rw [this]
    · rw [hd] at hok
      dsimp only at hok
      split at hok
      · cases hok
      · have := Except.ok.inj hok
        rw [this]
  subst ht1
  have hpres := save_preserves_status_event
    { t with
        event := some { e with available_seats := e.available_seats + t.quantity },
        status := TStatus.cancelled } now fr
  have hproj := save_cancelled_proj
    { t with
        event := some { e with available_seats := e.available_seats + t.quantity },
        status := TStatus.cancelled } now fr hp rfl hcd
  have hs1 : (cancelCommit t e now fr).1.status = TStatus.cancelled := hpres.1
  have hs2 : (cancelCommit t e now fr).1.event
      = some { e with available_seats := e.available_seats + t.quantity } := hpres.2
  have hs3 : (cancelCommit t e now fr).1.cancelled_date = some now := hproj.1
  have hs4 : (cancelCommit t e now fr).1.refund_amount = t.price * t.quantity := hproj.2
  refine ⟨hs1, hs2, hs3, hs4, ?_⟩
  intro now2 fr2
  unfold TicketViewSet.cancel
  rw [if_pos hs1]

/-- Event used in the zero-price cancellation counterexample. -/
def exEvent3 : Event :=
  { id := 5, title := "Gala", date := some 205, time := 600
  , price := 2000, total_seats := 10, available_seats := 5, is_active := true }

/-- A confirmed 2-seat ticket on `exEvent3` whose unit price is 0. -/
def exT3 : Ticket :=
  { id := 13, title := "Gala Ticket", price := 0, available := true
  , event := some exEvent3, user := some 7, purchase_date := some (198 * 1440)
  , status := TStatus.confirmed, quantity := 2
  , reference_number := "TKT-IIIIIIII"
  , qr_code_data := [("ticket_id", "13")]
  , cancelled_date := none, refund_amount := 0 }

/-- Counterexample to claim C3 as stated: cancelling the confirmed zero-price
ticket `exT3` succeeds, but `Ticket.save` first overwrites the falsy price
with the current price of the event (20.00), so the recorded refund is 40.00,
not `p * q = 0`. -/
theorem cancel_zero_price_refund_counterexample :
    exT3.status = TStatus.confirmed ∧ exT3.cancelled_date = none
    ∧ exT3.price * exT3.quantity = 0
    ∧ (cancelledTicket exT3 exNow "TKT-XX777777").map Ticket.refund_amount = some 4000
    ∧ (4000 : Int) ≠ 0 :=
  ⟨rfl, rfl, rfl, rfl, by decide⟩

/-- A well-priced confirmed ticket on `exEvent3`, for the C3 witness. -/
def exT3w : Ticket :=
  { exT3 with id := 14, price := 1500, reference_number := "TKT-JJJJJJJJ" }

/-- The ticket `TicketViewSet.cancel` produces from `exT3w` at `exNow`. -/
def exT3wRes : Ticket :=
  { exT3w with
      event := some { exEvent3 with available_seats := 7 },
      status := TStatus.cancelled,
      cancelled_date := some exNow,
      refund_amount := 3000 }

/-- Witness for the amended C3 at the concrete input `exT3w`. -/
theorem cancel_confirmed_ticket_spec_w :
    exT3wRes.status = TStatus.cancelled
    ∧ exT3wRes.event = some { exEvent3 with
        available_seats := exEvent3.available_seats + exT3w.quantity }
    ∧ exT3wRes.cancelled_date = some exNow
    ∧ exT3wRes.refund_amount = exT3w.price * exT3w.quantity := by
  have h := cancel_confirmed_ticket_spec exT3w exT3wRes exEvent3 exNow
    "TKT-KK555555" 3000 rfl rfl rfl (by decide) rfl
  exact ⟨h.1, h.2.1, h.2.2.1, h.2.2.2.1⟩

/-- Claim C10: a cancel request on a not-yet-cancelled ticket whose event has
a null date skips the window check entirely and succeeds — seats restored,
status set to cancelled — while the model-level `Ticket.can_be_cancelled`
says false for the very same ticket. -/
theorem cancel_null_event_date (t : Ticket) (e : Event) (now : Nat) (fr : String)
    (hst : t.status ≠ TStatus.cancelled) (hev : t.event = some e)
    (hd : e.date = none) :
    (∃ t1 r, TicketViewSet.cancel t now fr = Except.ok (t1, r)
      ∧ t1.status = TStatus.cancelled
      ∧ t1.event = some { e with available_seats := e.available_seats + t.quantity })
    ∧ t.can_be_cancelled now = false := by
  constructor
  · have hpres := save_preserves_status_event
      { t with
          event := some { e with available_seats := e.available_seats + t.quantity },
          status := TStatus.cancelled } now fr
    refine ⟨(cancelCommit t e now fr).1, (cancelCommit t e now fr).2, ?_, hpres.1, hpres.2⟩
    unfold TicketViewSet.cancel
    rw [if_neg hst, hev]
    dsimp only
    rw [hd]
  · unfold Ticket.can_be_cancelled
    by_cases hc : t.status = TStatus.confirmed
    · rw [if_neg (by simp [hc]), hev]
      dsimp only
      rw [hd]
    · rw [if_pos hc]

/-- Witness for C10: a confirmed ticket whose event row has no date. -/
def exT10 : Ticket :=
  { exT3w with
      id := 15,
      event := some { exEvent3 with date := none },
      reference_number := "TKT-LLLLLLLL" }

/-- Witness for C10 at the concrete ticket `exT10`. -/
theorem cancel_null_event_date_w :
    (∃ t1 r, TicketViewSet.cancel exT10 exNow "TKT-MM444444" = Except.ok (t1, r)
      ∧ t1.status = TStatus.cancelled
      ∧ t1.event = some { { exEvent3 with date := none } with
          available_seats := { exEvent3 with date := none }.available_seats + exT10.quantity })
    ∧ exT10.can_be_cancelled exNow = false :=
  cancel_null_event_date exT10 { exEvent3 with date := none } exNow "TKT-MM444444"
    (by decide) rfl rfl

/-- Claim C8: whenever the generator returns a reference, it is `TKT-`
followed by exactly 8 characters of the uppercase-alphanumeric alphabet, and
it is not among the references already stored — a colliding candidate is
skipped and the next draw is tried. -/
theorem generate_reference_number_spec (existing : List String)
    (draws : List (List (Fin 36))) (r : String)
    (hlen : ∀ d ∈ draws, d.length = 8)
    (h : generate_reference_number existing draws = some r) :
    (∃ s : String, r = "TKT-" ++ s ∧ s.length = 8
      ∧ ∀ c ∈ s.data, c ∈ refAlphabet)
    ∧ r ∉ existing := by
  induction draws with
  | nil => simp [generate_reference_number] at h
  | cons d rest ih =>
    unfold generate_reference_number at h
    dsimp only at h
    split at h
    · exact ih (fun x hx => hlen x (List.mem_cons_of_mem d hx)) h
    · rename_i hmem
      have hr := Option.some.inj h
      subst hr
      refine ⟨⟨mkSuffix d, rfl, ?_, ?_⟩, hmem⟩
      · have hlm : (mkSuffix d).length = d.length := by
          show (d.map _).length = d.length
          exact List.length_map d _
        rw [hlm]
        exact hlen d (List.mem_cons_self d rest)
      · intro c hc
        have hc1 : c ∈ d.map
            (fun i => refAlphabet.get (Fin.cast refAlphabet_length.symm i)) := hc
        obtain ⟨i, hi, hci⟩ := List.mem_map.mp hc1
        exact hci ▸ List.get_mem refAlphabet _ _

/-- Witness for C8: with `TKT-AAAAAAAA` already stored, the first draw (all
zeros) collides and is skipped, and the second draw yields `TKT-BAAAAAAA`,
well-formed and unused. -/
theorem generate_reference_number_spec_w :
    (∃ s : String, "TKT-BAAAAAAA" = "TKT-" ++ s ∧ s.length = 8
      ∧ ∀ c ∈ s.data, c ∈ refAlphabet)
    ∧ "TKT-BAAAAAAA" ∉ ["TKT-AAAAAAAA"] :=
  generate_reference_number_spec ["TKT-AAAAAAAA"]
    [[0, 0, 0, 0, 0, 0, 0, 0], [1, 0, 0, 0, 0, 0, 0, 0]] "TKT-BAAAAAAA"
    (by decide) (by decide)

/-- Count of the tickets of a user, as the claim phrases it: any status. -/
def specTotalCount (tickets : List Ticket) (u : Nat) : Nat :=
  tickets.countP fun t => t.user == some u

/-- The upcoming count of the claim read literally: confirmed tickets of the user
whose event date is strictly in the future of today. -/
def strictUpcomingCount (tickets : List Ticket) (u : Nat) (today : Nat) : Nat :=
  tickets.countP fun t =>
    t.user == some u && t.status == TStatus.confirmed &&
      match t.event with
      | some e => match e.date with
        | some d => decide (today < d)
        | none => false
      | none => false

/-- The amended "upcoming" count: event date today or later. -/
def onOrAfterUpcomingCount (tickets : List Ticket) (u : Nat) (today : Nat) : Nat :=
  tickets.countP fun t =>
    t.user == some u && t.status == TStatus.confirmed &&
      match t.event with
      | some e => match e.date with
        | some d => decide (today ≤ d)
        | none => false
      | none => false

/-- Total spent as the claim phrases it: `price * quantity` summed over the confirmed tickets of the
confirmed tickets. -/
def specTotalSpent (tickets : List Ticket) (u : Nat) : Int :=
  (tickets.filter fun t => t.user == some u && t.status == TStatus.confirmed).foldr
    (fun t s => t.price * t.quantity + s) 0

/-- Two chained filters measured at once equal a single combined count. -/
theorem length_filter_filter_eq_countP {α : Type} (l : List α) (p q g : α → Bool)
    (hg : ∀ a, g a = (p a && q a)) :
    ((l.filter p).filter q).length = l.countP g := by
  induction l with
  | nil => rfl
  | cons a l ih =>
    by_cases hp : p a <;> by_cases hq : q a <;>
      simp [List.filter_cons, List.countP_cons, hp, hq, hg, ih,
        -List.filter_filter]

/-- Sum of a map over two chained filters equals a fold over the combined
filter. -/
theorem sum_map_filter_filter {α : Type} (l : List α) (p q g : α → Bool)
    (f : α → Int) (hg : ∀ a, g a = (p a && q a)) :
    (((l.filter p).filter q).map f).sum
      = (l.filter g).foldr (fun a s => f a + s) 0 := by
  induction l with
  | nil => rfl
  | cons a l ih =>
    by_cases hp : p a <;> by_cases hq : q a <;>
      simp [List.filter_cons, hp, hq, hg, ih, -List.filter_filter]

/-- Event taking place today relative to `exNow9`. -/
def exEvent9 : Event :=
  { id := 6, title := "Derby", date := some 100, time := 720
  , price := 1000, total_seats := 10, available_seats := 8, is_active := true }

/-- A confirmed ticket of user 7 on `exEvent9`, which takes place today. -/
def exT9 : Ticket :=
  { id := 16, title := "Derby Ticket", price := 1000, available := true
  , event := some exEvent9, user := some 7, purchase_date := some (99 * 1440)
  , status := TStatus.confirmed, quantity := 1
  , reference_number := "TKT-NNNNNNNN"
  , qr_code_data := [("ticket_id", "16")]
  , cancelled_date := none, refund_amount := 0 }

/-- Store with the single ticket `exT9`. -/
def exDB9 : DB := { events := [exEvent9], tickets := [exT9] }

/-- An instant one hour into day 100 — the day of `exEvent9`. -/
def exNow9 : Nat := 100 * 1440 + 60

/-- Counterexample to claim C9 as stated: for a confirmed ticket whose event
date is today (not in the future), the stats query counts it as upcoming
(`event__date__gte` includes today), so the reported upcoming count differs
from the number of tickets whose event date is in the future. -/
theorem stats_upcoming_today_counterexample :
    (TicketViewSet.stats exDB9 7 exNow9).upcoming_tickets = 1
    ∧ strictUpcomingCount exDB9.tickets 7 (exNow9 / 1440) = 0
    ∧ (TicketViewSet.stats exDB9 7 exNow9).upcoming_tickets
        ≠ strictUpcomingCount exDB9.tickets 7 (exNow9 / 1440) :=
  ⟨rfl, rfl, by decide⟩

/-- Claim C9 (amended): the stats query returns the number of tickets the
requesting user holds in any status, the number of confirmed tickets of the user whose
event date is today or later, and the sum of `price * quantity` over the
confirmed tickets of the user, all computed from the ticket rows passed in. -/
theorem stats_spec (db : DB) (u : Nat) (now : Nat) :
    (TicketViewSet.stats db u now).total_tickets = specTotalCount db.tickets u
    ∧ (TicketViewSet.stats db u now).upcoming_tickets
        = onOrAfterUpcomingCount db.tickets u (now / 1440)
    ∧ (TicketViewSet.stats db u now).total_spent = specTotalSpent db.tickets u := by
  refine ⟨?_, ?_, ?_⟩
  · exact (List.countP_eq_length_filter _ _).symm
  · exact length_filter_filter_eq_countP db.tickets _ _ _
      (fun t => by simp [upcomingFilter, Bool.and_assoc])
  · exact sum_map_filter_filter db.tickets _ _ _ _ (fun t => rfl)

end TicketSystem
